import Mathlib

/-!
Shallow embedding of the tabular repair pipeline found in the data
cleaning notebook of the Credit-Risk-Assessment repository.

The notebook loads a spreadsheet with pandas read_excel using header=0,
which leaves the descriptive label row (ID, LIMIT_BAL, SEX, ...) as data
row 0 and makes every column a generic object column.  The cleaning code
then runs a coercion loop with pd.to_numeric and errors coerce over every
object column, renames columns with df.rename using a fixed dictionary,
and relabels GENDER, EDUCATION and MARITAL_STATUS with Series.map.

Tables are embedded column-major: a list of named columns, each an
ordered list of cells.  Numbers are modelled by the rationals.
-/

/-- A cell of the in-memory table: a raw text value, a numeric value, or
the missing marker (the NaN produced by coercion or by an unmapped code). -/
inductive Cell where
  | str : String → Cell
  | num : ℚ → Cell
  | missing : Cell
deriving DecidableEq

/-- A table as loaded by pandas read_excel: named columns, each an
ordered list of cells.  Row r of the table is the r-th cell of every
column. -/
structure Table where
  cols : List (String × List Cell)
deriving DecidableEq

/-- Ordered list of column names of a table. -/
def colNames (t : Table) : List String :=
  t.cols.map Prod.fst

/-- Number of rows of a table: the length of its first column (the
loaded table has all columns of equal length). -/
def Table.nRows (t : Table) : Nat :=
  match t.cols with
  | [] => 0
  | c :: _ => c.2.length

/-- Column lookup by name, returning the cells of the first column with
that name (pandas resolves a duplicated label to its first occurrence). -/
def getCol (t : Table) (n : String) : Option (List Cell) :=
  Option.map Prod.snd (t.cols.find? (fun c => decide (c.1 = n)))

/-- Cell lookup by column name and row index. -/
def getCell (t : Table) (n : String) (r : Nat) : Option Cell :=
  (getCol t n).bind (fun cs => cs.get? r)

/-- Whitespace recognized when a numeric string is trimmed. -/
def isWS (c : Char) : Bool :=
  c = ' ' || c = '\t' || c = '\n' || c = '\r'

/-- Remove leading and trailing whitespace from a character list. -/
def trimChars (l : List Char) : List Char :=
  ((l.dropWhile isWS).reverse.dropWhile isWS).reverse

/-- Value of a digit list read in base ten. -/
def natOfDigits (l : List Char) : Nat :=
  l.foldl (fun n c => 10 * n + (c.toNat - 48)) 0

/-- Parse a nonempty all-digit list, failing otherwise. -/
def parseDigits (l : List Char) : Option Nat :=
  if l.isEmpty then none
  else if l.all Char.isDigit then some (natOfDigits l) else none

/-- Parse an unsigned integer or decimal literal, the shapes accepted by
the pandas numeric coercion for the values of this dataset. -/
def parseUnsigned (l : List Char) : Option ℚ :=
  let ip := l.takeWhile (fun c => c ≠ '.')
  let fpart := l.dropWhile (fun c => c ≠ '.')
  match fpart with
  | [] => Option.map (fun n => (n : ℚ)) (parseDigits ip)
  | _ :: fp =>
    if fp.contains '.' then none
    else if ip.isEmpty && fp.isEmpty then none
    else if ip.all Char.isDigit && fp.all Char.isDigit then
      some ((natOfDigits ip : ℚ) + (natOfDigits fp : ℚ) / ((10 : ℚ) ^ fp.length))
    else none

/-- Parse an optional leading sign followed by an unsigned literal. -/
def parseSigned (l : List Char) : Option ℚ :=
  match l with
  | '-' :: rest => Option.map (fun q => -q) (parseUnsigned rest)
  | '+' :: rest => parseUnsigned rest
  | _ => parseUnsigned l

/-- Numeric parse of a character list: trim surrounding whitespace, then
parse a signed integer or decimal. -/
def parseNumChars (l : List Char) : Option ℚ :=
  parseSigned (trimChars l)

/-- Numeric parse of a string, modelling what pd.to_numeric accepts for
the string cells of this dataset: whitespace is trimmed, integers and
decimals succeed, the empty string and tokens such as N/A fail. -/
def parseNumeric (s : String) : Option ℚ :=
  parseNumChars s.data

/-- Coercion of one cell by pd.to_numeric with the errors coerce policy:
a parseable string becomes its number, an unparseable string becomes the
missing marker, numbers and the missing marker pass through. -/
def toNumericCell : Cell → Cell
  | Cell.str s =>
    match parseNumeric s with
    | some q => Cell.num q
    | none => Cell.missing
  | Cell.num q => Cell.num q
  | Cell.missing => Cell.missing

/-- Test for a raw text cell. -/
def isStrCell : Cell → Bool
  | Cell.str _ => true
  | _ => false

/-- Test for a numeric cell. -/
def isNumCell : Cell → Bool
  | Cell.num _ => true
  | _ => false

/-- A column has pandas dtype object exactly when it still carries some
raw text cell; the coercion loop selects those columns. -/
def isObjectCol (cs : List Cell) : Bool :=
  cs.any isStrCell

/-- The retyping loop of the notebook: for every column of dtype object,
replace each cell by its pd.to_numeric coercion; other columns are left
alone.  This embeds the loop over df.select_dtypes(include=object). -/
def retype (t : Table) : Table :=
  ⟨t.cols.map (fun c => if isObjectCol c.2 then (c.1, c.2.map toNumericCell) else c)⟩

/-- A cell is counted as coerced when it was raw text that the numeric
parse turned into the missing marker. -/
def cellCoerced (c : Cell) : Bool :=
  isStrCell c && decide (toNumericCell c = Cell.missing)

/-- Per-column diagnostic: how many missing values the retyping
introduces, the count the spec asks to audit. -/
def naIntroduced (cs : List Cell) : Nat :=
  cs.countP cellCoerced

/-- The diagnostic actually printed by the notebook: the number of
missing cells after conversion of the whole column. -/
def naCountIfConverted (cs : List Cell) : Nat :=
  (cs.map toNumericCell).countP (fun c => decide (c = Cell.missing))

/-- New name of a column under a rename mapping: the mapped name when the
old name is a key, otherwise the old name (pandas df.rename keeps any
column whose name is not a key). -/
def applyRename (m : List (String × String)) (n : String) : String :=
  match m.lookup n with
  | some n2 => n2
  | none => n

/-- The rename step of the notebook, df.rename with a columns dictionary:
every column keeps its cells and its position and gets its mapped name.
Keys that match no column have no effect and raise nothing, which is the
default errors policy of pandas rename. -/
def renameCols (m : List (String × String)) (t : Table) : Table :=
  ⟨t.cols.map (fun c => (applyRename m c.1, c.2))⟩

/-- Error kind named by the spec for a rename key that matches no
column. -/
inductive RenameError where
  | UnknownColumn : RenameError

/-- Modelled from the spec, section 4.4, for comparison with the code:
a renamer that fails with UnknownColumn when some mapping key matches no
existing column, and otherwise renames.  No such failing renamer exists
in the source. -/
def renameColsSpec (m : List (String × String)) (t : Table) :
    Except RenameError Table :=
  if m.all (fun kv => t.cols.any (fun c => kv.1 == c.1)) then
    Except.ok (renameCols m t)
  else
    Except.error RenameError.UnknownColumn

/-- Lookup of a cell among the keys of a code-to-label mapping. -/
def lookupLabel (m : List (Cell × String)) (c : Cell) : Option String :=
  Option.map Prod.snd (m.find? (fun kv => decide (kv.1 = c)))

/-- Series.map with a dictionary, applied to one cell: a cell equal to a
key becomes the string label of that key, any other cell (an absent
code, a string, or the missing marker) becomes the missing marker. -/
def applyLabel (m : List (Cell × String)) (c : Cell) : Cell :=
  match lookupLabel m c with
  | some l => Cell.str l
  | none => Cell.missing

/-- The categorical labelling step of the notebook: reassign the named
column to its Series.map image; every other column is untouched. -/
def labelCol (name : String) (m : List (Cell × String)) (t : Table) : Table :=
  ⟨t.cols.map (fun c => if c.1 = name then (c.1, c.2.map (applyLabel m)) else c)⟩

/-- The column_mapping dictionary of the notebook, verbatim.  The last
key names a column that does not exist in the loaded table, whose target
column is named Y. -/
def columnMapping : List (String × String) :=
  [("X1", "CREDIT_AMOUNT"), ("X2", "GENDER"), ("X3", "EDUCATION"),
   ("X4", "MARITAL_STATUS"), ("X5", "AGE"), ("X6", "PAY_SEPT"),
   ("X7", "PAY_AUG"), ("X8", "PAY_JUL"), ("X9", "PAY_JUN"),
   ("X10", "PAY_MAY"), ("X11", "PAY_APR"), ("X12", "BILL_SEPT"),
   ("X13", "BILL_AUG"), ("X14", "BILL_JUL"), ("X15", "BILL_JUN"),
   ("X16", "BILL_MAY"), ("X17", "BILL_APR"), ("X18", "PAY_AMT_SEPT"),
   ("X19", "PAY_AMT_AUG"), ("X20", "PAY_AMT_JUL"), ("X21", "PAY_AMT_JUN"),
   ("X22", "PAY_AMT_MAY"), ("X23", "PAY_AMT_APR"),
   ("default.payment.next.month", "DEFAULT")]

/-- The GENDER code dictionary of the notebook. -/
def genderMap : List (Cell × String) :=
  [(Cell.num 1, "Male"), (Cell.num 2, "Female")]

/-- The EDUCATION code dictionary of the notebook. -/
def educationMap : List (Cell × String) :=
  [(Cell.num 1, "Graduate School"), (Cell.num 2, "University"),
   (Cell.num 3, "High School"), (Cell.num 4, "Other")]

/-- The MARITAL_STATUS code dictionary of the notebook. -/
def maritalMap : List (Cell × String) :=
  [(Cell.num 1, "Married"), (Cell.num 2, "Single"), (Cell.num 3, "Other")]

/-- The full cleaning pipeline run by the notebook after loading: the
retyping loop, then the rename, then the three categorical labellings.
No stage removes any row. -/
def pipeline (t : Table) : Table :=
  labelCol "MARITAL_STATUS" maritalMap
    (labelCol "EDUCATION" educationMap
      (labelCol "GENDER" genderMap
        (renameCols columnMapping (retype t))))

/-- The first rows of the canonical dataset exactly as the notebook
prints them after loading: the positional header became the schema, the
descriptive label row became data row 0, and the first two data rows
follow.  Restricted to the columns whose values the notebook output
shows. -/
def canonical : Table :=
  ⟨[("Unnamed: 0", [Cell.str "ID", Cell.num 1, Cell.num 2]),
    ("X1", [Cell.str "LIMIT_BAL", Cell.num 20000, Cell.num 120000]),
    ("X2", [Cell.str "SEX", Cell.num 2, Cell.num 2]),
    ("X3", [Cell.str "EDUCATION", Cell.num 2, Cell.num 2]),
    ("X4", [Cell.str "MARRIAGE", Cell.num 1, Cell.num 2]),
    ("X5", [Cell.str "AGE", Cell.num 24, Cell.num 26]),
    ("Y", [Cell.str "default payment next month", Cell.num 1, Cell.num 1])]⟩


/-- Helper: a fully whitespace prefix is dropped through an append. -/
theorem dropWhile_append_of_empty {p : Char → Bool} :
    ∀ (l1 l2 : List Char), l1.dropWhile p = [] →
      (l1 ++ l2).dropWhile p = l2.dropWhile p
  | [], _, _ => rfl
  | a :: l1, l2, h => by
      cases ha : p a with
      | true =>
          rw [List.dropWhile_cons, if_pos ha] at h
          rw [List.cons_append, List.dropWhile_cons, if_pos ha]
          exact dropWhile_append_of_empty l1 l2 h
      | false =>
          rw [List.dropWhile_cons, if_neg (by simp [ha])] at h
          simp at h

/-- Helper: when dropping stops inside the first list, an appended
suffix is untouched. -/
theorem dropWhile_append_of_ne {p : Char → Bool} :
    ∀ (l1 l2 : List Char), l1.dropWhile p ≠ [] →
      (l1 ++ l2).dropWhile p = l1.dropWhile p ++ l2
  | [], _, h => absurd rfl h
  | a :: l1, l2, h => by
      cases ha : p a with
      | true =>
          rw [List.dropWhile_cons, if_pos ha] at h
          rw [List.cons_append, List.dropWhile_cons, if_pos ha,
            List.dropWhile_cons, if_pos ha]
          exact dropWhile_append_of_ne l1 l2 h
      | false =>
          rw [List.cons_append, List.dropWhile_cons, if_neg (by simp [ha]),
            List.dropWhile_cons, if_neg (by simp [ha])]
          rfl

/-- Helper: trimming absorbs one leading and one trailing blank. -/
theorem trimChars_pad (l : List Char) :
    trimChars (' ' :: (l ++ [' '])) = trimChars l := by
  unfold trimChars
  have hsp : isWS ' ' = true := rfl
  rw [List.dropWhile_cons, if_pos hsp]
  by_cases h : l.dropWhile isWS = []
  · rw [dropWhile_append_of_empty l [' '] h, h]
    rfl
  · rw [dropWhile_append_of_ne l [' '] h, List.reverse_append,
      List.reverse_singleton, List.singleton_append,
      List.dropWhile_cons, if_pos hsp]

/-- Helper: a lookup misses when no key equals the probe. -/
theorem lookup_eq_none_of (m : List (String × String)) (n : String)
    (h : ∀ kv ∈ m, kv.1 ≠ n) : m.lookup n = none := by
  induction m with
  | nil => rfl
  | cons kv m ih =>
      have hne : (n == kv.1) = false := by
        have := h kv (List.mem_cons_self kv m)
        simp [this]
        exact fun he => absurd he.symm this
      obtain ⟨k, v⟩ := kv
      simp only [List.lookup, hne]
      exact ih (fun kv2 h2 => h kv2 (List.mem_cons_of_mem _ h2))

/-- Helper: filtering a rename mapping down to the keys that occur among
the columns does not change a lookup of a column name. -/
theorem lookup_filter_cols (t : Table) (n : String)
    (h : t.cols.any (fun c => n == c.1) = true) (m : List (String × String)) :
    (m.filter (fun kv => t.cols.any (fun c => kv.1 == c.1))).lookup n
      = m.lookup n := by
  induction m with
  | nil => rfl
  | cons kv m ih =>
      rw [List.filter_cons]
      by_cases hk : (n == kv.1) = true
      · have hkv : kv.1 = n := (eq_of_beq hk).symm
        rw [if_pos (show (t.cols.any (fun c => kv.1 == c.1)) = true from by rw [hkv]; exact h)]
        obtain ⟨k, v⟩ := kv
        simp only [List.lookup, hk]
      · have hk2 : (n == kv.1) = false := by
          revert hk; cases (n == kv.1) <;> simp
        by_cases hkeep : (t.cols.any (fun c => kv.1 == c.1)) = true
        · rw [if_pos hkeep]
          obtain ⟨k, v⟩ := kv
          simp only [List.lookup, hk2]
          exact ih
        · rw [if_neg hkeep, ih]
          obtain ⟨k, v⟩ := kv
          simp only [List.lookup, hk2]

/-- Helper: when the renamed column names are pairwise distinct, looking
a column up by its renamed name finds the cells its old name found. -/
theorem find?_renamed (m : List (String × String)) :
    ∀ (cols : List (String × List Cell)) (n : String),
      n ∈ cols.map Prod.fst →
      ((cols.map (fun c => (applyRename m c.1, c.2))).map Prod.fst).Nodup →
      Option.map Prod.snd
          ((cols.map (fun c => (applyRename m c.1, c.2))).find?
            (fun c => decide (c.1 = applyRename m n)))
        = Option.map Prod.snd (cols.find? (fun c => decide (c.1 = n)))
  | [], n, hmem, _ => absurd hmem (by simp)
  | c :: cs, n, hmem, hnd => by
      by_cases hc : c.1 = n
      · rw [List.map_cons, List.find?_cons_of_pos _ (by simp [hc]),
          List.find?_cons_of_pos _ (by simp [hc])]
        simp
      · have hn : n ∈ cs.map Prod.fst := by
          rw [List.map_cons, List.mem_cons] at hmem
          exact hmem.resolve_left (fun h => hc h.symm)
        have hne : ¬ applyRename m c.1 = applyRename m n := by
          intro heq
          have hmm : applyRename m n
              ∈ (cs.map (fun c => (applyRename m c.1, c.2))).map Prod.fst := by
            rcases List.mem_map.mp hn with ⟨c2, hc2, hfst⟩
            exact List.mem_map.mpr ⟨(applyRename m c2.1, c2.2),
              List.mem_map.mpr ⟨c2, hc2, rfl⟩, by simp [hfst]⟩
          rw [List.map_cons, List.map_cons] at hnd
          exact (List.nodup_cons.mp hnd).1 (heq ▸ hmm)
        rw [List.map_cons, List.find?_cons_of_neg _ (by simp [hne]),
          List.find?_cons_of_neg _ (by simp [hc])]
        have hnd2 : ((cs.map (fun c => (applyRename m c.1, c.2))).map Prod.fst).Nodup := by
          rw [List.map_cons, List.map_cons] at hnd
          exact (List.nodup_cons.mp hnd).2
        exact find?_renamed m cs n hn hnd2

/-- Helper: a cell-wise length-preserving column transformation keeps
the row count. -/
theorem nRows_map_of (f : String × List Cell → String × List Cell)
    (hf : ∀ c, (f c).2.length = c.2.length) (t : Table) :
    Table.nRows ⟨t.cols.map f⟩ = Table.nRows t := by
  cases t with
  | mk cols =>
    cases cols with
    | nil => rfl
    | cons c cs =>
        show (f c).2.length = c.2.length
        exact hf c

/-- Helper: the retyping loop keeps the row count. -/
theorem nRows_retype (t : Table) : Table.nRows (retype t) = Table.nRows t :=
  nRows_map_of (fun c => if isObjectCol c.2 then (c.1, c.2.map toNumericCell) else c)
    (fun c => by by_cases h : isObjectCol c.2 <;> simp [h]) t

/-- Helper: the rename keeps the row count. -/
theorem nRows_rename (m : List (String × String)) (t : Table) :
    Table.nRows (renameCols m t) = Table.nRows t :=
  nRows_map_of (fun c => (applyRename m c.1, c.2)) (fun _ => rfl) t

/-- Helper: the categorical labelling keeps the row count. -/
theorem nRows_label (n : String) (lm : List (Cell × String)) (t : Table) :
    Table.nRows (labelCol n lm t) = Table.nRows t :=
  nRows_map_of (fun c => if c.1 = n then (c.1, c.2.map (applyLabel lm)) else c)
    (fun c => by by_cases h : c.1 = n <;> simp [h]) t

/-- Helper: a map whose function is constant on a list is a replicate. -/
theorem map_eq_replicate_of_all {α β : Type} (f : α → β) (b : β) :
    ∀ (l : List α), (∀ a ∈ l, f a = b) → l.map f = List.replicate l.length b
  | [], _ => rfl
  | a :: l, h => by
      rw [List.map_cons, List.length_cons, List.replicate_succ,
        h a (List.mem_cons_self a l),
        map_eq_replicate_of_all f b l (fun x hx => h x (List.mem_cons_of_mem a hx))]

/-- Claim C1, evaluation of the code at the failing input: no stage of
the pipeline removes row 0.  On the canonical loaded table the row count
is unchanged by the retyping loop and by the whole pipeline, row 0 of
every retyped column is merely coerced to the missing marker instead of
being removed, and a second run of the retyping loop succeeds as a
no-op, so no per-table header-excised guard exists. -/
theorem C1_header_never_excised :
    Table.nRows canonical = 3
    ∧ Table.nRows (retype canonical) = 3
    ∧ Table.nRows (pipeline canonical) = 3
    ∧ (retype canonical).cols.map (fun c => c.2.get? 0)
        = List.replicate 7 (some Cell.missing)
    ∧ retype (retype canonical) = retype canonical := by decide

/-- Claim C2, evaluation of the code at the failing input: on the
canonical dataset the retyping introduces exactly one coerced missing
value in every column (the label cell of row 0), matching the diagnostic
the notebook prints, and zero among the rows after row 0; the claimed
count of zero for the whole column fails. -/
theorem C2_retype_na_counts :
    canonical.cols.map (fun c => naIntroduced c.2) = List.replicate 7 1
    ∧ canonical.cols.map (fun c => naCountIfConverted c.2) = List.replicate 7 1
    ∧ canonical.cols.map (fun c => naIntroduced (c.2.drop 1)) = List.replicate 7 0 := by
  decide

/-- Claim C3 counterexample: the column_mapping of the notebook has a
key matching no column of the canonical table, the spec-modelled failing
renamer rejects it, yet the renamer of the code produces a renamed table
(names renamed, all cells kept) instead of failing. -/
theorem C3_counterexample :
    columnMapping.any (fun kv => !(canonical.cols.any (fun c => kv.1 == c.1))) = true
    ∧ (renameColsSpec columnMapping canonical).isOk = false
    ∧ colNames (renameCols columnMapping canonical)
        = ["Unnamed: 0", "CREDIT_AMOUNT", "GENDER", "EDUCATION",
           "MARITAL_STATUS", "AGE", "Y"]
    ∧ (renameCols columnMapping canonical).cols.map Prod.snd
        = canonical.cols.map Prod.snd := by decide

/-- Claim C3 as amended: the Column Renamer never fails on a mapping key
that matches no existing column; renaming with the full mapping equals
renaming with the unmatched keys filtered away, so such keys are
silently ignored. -/
theorem C3_rename_ignores_unknown_keys (m : List (String × String)) (t : Table) :
    renameCols m t
      = renameCols (m.filter (fun kv => t.cols.any (fun c => kv.1 == c.1))) t := by
  unfold renameCols
  congr 1
  refine List.map_congr_left ?_
  intro c hc
  have h : t.cols.any (fun c2 => c.1 == c2.1) = true :=
    List.any_eq_true.mpr ⟨c, hc, by simp⟩
  unfold applyRename
  rw [lookup_filter_cols t c.1 h m]

/-- Claim C4: per-cell semantics of the retyping coercion.  Parsing is
total and never raises: an unparseable string cell, such as N/A, coerces
to the missing marker and raises the per-column missing-count diagnostic
by exactly one; integers and decimals parse to numeric values;
surrounding whitespace is trimmed before parsing; cells already numeric
pass through unchanged; the empty string parses to missing. -/
theorem C4_retyper_cell_semantics :
    (∀ s : String, parseNumeric s = none → toNumericCell (Cell.str s) = Cell.missing)
    ∧ (∀ s : String, ∀ q : ℚ, parseNumeric s = some q →
        toNumericCell (Cell.str s) = Cell.num q)
    ∧ toNumericCell (Cell.str "N/A") = Cell.missing
    ∧ (∀ cs : List Cell, naIntroduced (Cell.str "N/A" :: cs) = naIntroduced cs + 1)
    ∧ parseNumeric "123" = some 123
    ∧ parseNumeric "2.5" = some (5 / 2)
    ∧ (∀ l : List Char, parseNumChars (' ' :: (l ++ [' '])) = parseNumChars l)
    ∧ (∀ q : ℚ, toNumericCell (Cell.num q) = Cell.num q)
    ∧ parseNumeric "" = none
    ∧ toNumericCell (Cell.str "") = Cell.missing := by
  refine ⟨?_, ?_, by decide, ?_, by decide, ?_, ?_, fun q => rfl, by decide, by decide⟩
  · intro s h
    simp [toNumericCell, h]
  · intro s q h
    simp [toNumericCell, h]
  · intro cs
    have hco : cellCoerced (Cell.str "N/A") = true := by decide
    simp [naIntroduced, List.countP_cons, hco]
  · have h : parseNumeric "2.5" = some ((2 : ℚ) + (5 : ℚ) / (10 : ℚ) ^ 1) := rfl
    rw [h]
    norm_num
  · intro l
    unfold parseNumChars
    rw [trimChars_pad]

/-- Claim C4 witness: the cell semantics evaluated at concrete inputs,
discharging each hypothesis. -/
theorem C4_witness :
    toNumericCell (Cell.str "abc") = Cell.missing
    ∧ toNumericCell (Cell.str " 24 ") = Cell.num 24
    ∧ parseNumChars (' ' :: (['2'] ++ [' '])) = parseNumChars ['2'] :=
  ⟨C4_retyper_cell_semantics.1 "abc" (by decide),
   C4_retyper_cell_semantics.2.1 " 24 " 24 (by decide),
   C4_retyper_cell_semantics.2.2.2.2.2.2.1 ['2']⟩

/-- Claim C5, evaluation of the code at the failing input of the
scenario: because the label row is never excised, after the full
pipeline the CREDIT_AMOUNT cell of row 0 is the missing marker, the
value 20000 sits at row 1, and GENDER is Female exactly for the rows
whose source code was 2; the claimed value 20000.0 at row 0 fails. -/
theorem C5_pipeline_scenario_eval :
    getCell (pipeline canonical) "CREDIT_AMOUNT" 0 = some Cell.missing
    ∧ getCell (pipeline canonical) "CREDIT_AMOUNT" 1 = some (Cell.num 20000)
    ∧ getCell canonical "X2" 1 = some (Cell.num 2)
    ∧ getCell (pipeline canonical) "GENDER" 1 = some (Cell.str "Female")
    ∧ getCell (pipeline canonical) "GENDER" 0 = some Cell.missing := by decide

/-- Claim C6 counterexample: a mapping whose keys all exist in the table
but whose renamed name collides with another column name breaks the
round trip: renaming column A to B shadows the original column B, and a
lookup of B after the rename no longer returns the value previously
addressable by the old name B. -/
theorem C6_counterexample :
    (∀ kv ∈ [("A", "B")],
        kv.1 ∈ colNames (Table.mk [("A", [Cell.num 1]), ("B", [Cell.num 2])]))
    ∧ applyRename [("A", "B")] "B" = "B"
    ∧ getCell (renameCols [("A", "B")]
          (Table.mk [("A", [Cell.num 1]), ("B", [Cell.num 2])])) "B" 0
        ≠ getCell (Table.mk [("A", [Cell.num 1]), ("B", [Cell.num 2])]) "B" 0 := by
  decide

/-- Claim C6 as amended: when every mapping key exists in the table and
the renamed column names are pairwise distinct, the rename preserves
column order and looking a cell up by the new name of a column returns
exactly the value previously addressable by its old name, for every
row. -/
theorem C6_rename_roundtrip (t : Table) (m : List (String × String))
    (hkeys : ∀ kv ∈ m, kv.1 ∈ colNames t)
    (hnd : (colNames (renameCols m t)).Nodup) :
    colNames (renameCols m t) = (colNames t).map (applyRename m)
    ∧ ∀ n ∈ colNames t, ∀ r,
        getCell (renameCols m t) (applyRename m n) r = getCell t n r := by
  constructor
  · simp [colNames, renameCols, List.map_map]
  · intro n hn r
    have hcol : getCol (renameCols m t) (applyRename m n) = getCol t n := by
      show Option.map Prod.snd
          ((t.cols.map (fun c => (applyRename m c.1, c.2))).find?
            (fun c => decide (c.1 = applyRename m n)))
        = Option.map Prod.snd (t.cols.find? (fun c => decide (c.1 = n)))
      exact find?_renamed m t.cols n (by simpa [colNames] using hn)
        (by simpa [colNames, renameCols] using hnd)
    rw [getCell, getCell, hcol]

/-- Claim C6 witness: the round trip evaluated at a concrete table and
collision-free mapping, discharging each hypothesis. -/
theorem C6_witness :
    getCell (renameCols [("A", "C")]
        (Table.mk [("A", [Cell.num 1]), ("B", [Cell.num 2])]))
        (applyRename [("A", "C")] "A") 0
      = getCell (Table.mk [("A", [Cell.num 1]), ("B", [Cell.num 2])]) "A" 0 :=
  (C6_rename_roundtrip (Table.mk [("A", [Cell.num 1]), ("B", [Cell.num 2])])
      [("A", "C")] (by decide) (by decide)).2 "A" (by decide) 0

/-- Claim C7: semantics of the Categorical Labeler.  A cell whose code
is a key of the mapping becomes the string label of that key; a cell
whose code is absent from the mapping becomes the missing marker with no
error raised; the resulting column carries no numeric cell, so the
declared type changes from numeric to categorical-string; and the number
of cells of the labelled column that are missing equals the count of
cells whose lookup missed, the diagnostic count. -/
theorem C7_labeler_semantics (m : List (Cell × String)) (cs : List Cell) :
    (∀ c l, lookupLabel m c = some l → applyLabel m c = Cell.str l)
    ∧ (∀ c, lookupLabel m c = none → applyLabel m c = Cell.missing)
    ∧ (∀ c, isNumCell (applyLabel m c) = false)
    ∧ (∀ c, applyLabel m c = Cell.missing ∨ ∃ l, applyLabel m c = Cell.str l)
    ∧ (cs.map (applyLabel m)).countP (fun c => decide (c = Cell.missing))
        = cs.countP (fun c => decide (lookupLabel m c = none)) := by
  refine ⟨?_, ?_, ?_, ?_, ?_⟩
  · intro c l h
    simp [applyLabel, h]
  · intro c h
    simp [applyLabel, h]
  · intro c
    unfold applyLabel
    cases h : lookupLabel m c <;> simp [isNumCell]
  · intro c
    unfold applyLabel
    cases h : lookupLabel m c
    · exact Or.inl rfl
    · exact Or.inr ⟨_, rfl⟩
  · rw [List.countP_map]
    refine List.countP_congr ?_
    intro c _
    simp only [Function.comp_apply, decide_eq_true_eq]
    cases h : lookupLabel m c <;> simp [applyLabel, h]

/-- Claim C7 witness: the labeler evaluated on a mapped and an unmapped
code of the GENDER mapping, discharging each hypothesis. -/
theorem C7_witness :
    applyLabel genderMap (Cell.num 2) = Cell.str "Female"
    ∧ applyLabel genderMap (Cell.num 5) = Cell.missing :=
  ⟨(C7_labeler_semantics genderMap []).1 (Cell.num 2) "Female" (by decide),
   (C7_labeler_semantics genderMap []).2.1 (Cell.num 5) (by decide)⟩

/-- Claim C8 counterexample: the GENDER mapping has codes disjoint from
its labels, yet applying the labeler to the already-labelled column
containing Female does not leave it unchanged: the label is not a key,
so it is wiped to the missing marker. -/
theorem C8_counterexample :
    (∀ kv ∈ genderMap, ∀ kv2 ∈ genderMap, kv.1 ≠ Cell.str kv2.2)
    ∧ [Cell.str "Female"].map (applyLabel genderMap) ≠ [Cell.str "Female"] := by
  decide

/-- Claim C8 as amended: for a mapping whose codes are disjoint from its
labels and do not include the missing marker, a second application of
the labeler to an already-labelled column (cells are labels of the
mapping or missing) turns every cell into the missing marker; it is
therefore a no-op exactly when the column is already entirely missing,
never a no-op on a column still carrying labels. -/
theorem C8_double_label (m : List (Cell × String)) (cs : List Cell)
    (hdisj : ∀ kv ∈ m, ∀ kv2 ∈ m, kv.1 ≠ Cell.str kv2.2)
    (hmiss : ∀ kv ∈ m, kv.1 ≠ Cell.missing)
    (hlab : ∀ c ∈ cs, c = Cell.missing ∨ ∃ kv ∈ m, c = Cell.str kv.2) :
    cs.map (applyLabel m) = List.replicate cs.length Cell.missing
    ∧ (cs.map (applyLabel m) = cs ↔ cs = List.replicate cs.length Cell.missing) := by
  have hall : ∀ c ∈ cs, applyLabel m c = Cell.missing := by
    intro c hc
    have hfind : m.find? (fun kv => decide (kv.1 = c)) = none := by
      rw [List.find?_eq_none]
      intro kv hkv
      simp only [decide_eq_true_eq]
      rcases hlab c hc with h | ⟨kv2, hkv2, h⟩
      · rw [h]
        exact hmiss kv hkv
      · rw [h]
        exact hdisj kv hkv kv2 hkv2
    simp [applyLabel, lookupLabel, hfind]
  have hrep : cs.map (applyLabel m) = List.replicate cs.length Cell.missing :=
    map_eq_replicate_of_all _ _ cs hall
  exact ⟨hrep, fun h2 => h2.symm.trans hrep, fun h2 => hrep.trans h2.symm⟩

/-- Claim C8 witness: the second application evaluated on a concrete
already-labelled column, discharging each hypothesis. -/
theorem C8_witness :
    [Cell.str "Male", Cell.missing].map (applyLabel genderMap)
      = List.replicate 2 Cell.missing :=
  (C8_double_label genderMap [Cell.str "Male", Cell.missing]
      (by decide) (by decide) (by decide)).1

/-- Claim C9: every stage after loading preserves the number of rows of
the table: the retyping loop, the rename, the categorical labelling, and
therefore the whole pipeline; in particular no stage ever deletes the
stray label row. -/
theorem C9_row_count_preserved (t : Table) (m : List (String × String))
    (n : String) (lm : List (Cell × String)) :
    Table.nRows (retype t) = Table.nRows t
    ∧ Table.nRows (renameCols m t) = Table.nRows t
    ∧ Table.nRows (labelCol n lm t) = Table.nRows t
    ∧ Table.nRows (pipeline t) = Table.nRows t := by
  refine ⟨nRows_retype t, nRows_rename m t, nRows_label n lm t, ?_⟩
  unfold pipeline
  rw [nRows_label, nRows_label, nRows_label, nRows_rename, nRows_retype]

/-- Claim C10: the rename leaves every column whose name is not a key of
the mapping entirely unchanged, same name, same cells, same position,
and silently ignores keys matching no column; concretely, after the
rename of the pipeline on the canonical table the identifier column is
still named Unnamed: 0 in position 0 and the target column is still
named Y, never DEFAULT, because the key default.payment.next.month
matches no column. -/
theorem C10_rename_frame :
    (∀ (t : Table) (m : List (String × String)) (i : Nat) (c : String × List Cell),
        t.cols.get? i = some c → (∀ kv ∈ m, kv.1 ≠ c.1) →
        (renameCols m t).cols.get? i = some c)
    ∧ colNames (renameCols columnMapping (retype canonical))
        = ["Unnamed: 0", "CREDIT_AMOUNT", "GENDER", "EDUCATION",
           "MARITAL_STATUS", "AGE", "Y"]
    ∧ colNames (pipeline canonical)
        = ["Unnamed: 0", "CREDIT_AMOUNT", "GENDER", "EDUCATION",
           "MARITAL_STATUS", "AGE", "Y"]
    ∧ "DEFAULT" ∉ colNames (pipeline canonical) := by
  refine ⟨?_, by decide, by decide, by decide⟩
  intro t m i c hget hkeys
  show (t.cols.map (fun c => (applyRename m c.1, c.2))).get? i = some c
  rw [List.get?_map, hget]
  have h : m.lookup c.1 = none := lookup_eq_none_of m c.1 hkeys
  simp [applyRename, h]

/-- Claim C10 witness: the frame property evaluated on a concrete table
whose single column matches no key of the column_mapping of the
notebook, discharging each hypothesis. -/
theorem C10_witness :
    (renameCols columnMapping (Table.mk [("Y", [Cell.num 1])])).cols.get? 0
      = some ("Y", [Cell.num 1]) :=
  C10_rename_frame.1 (Table.mk [("Y", [Cell.num 1])]) columnMapping 0
    ("Y", [Cell.num 1]) rfl (by decide)
